import Mathlib

/-!
Verification of the form-filling agent: a shallow embedding of
`src/google_form_handler.py`, the submission step of `src/app.py`, and the
review workflow of `src/rag_workflow_with_human_feedback.py`, together with
theorems settling the specification's claims about them.
-/

/-- `GoogleFormHandler.ANY_TEXT_FIELD` (google_form_handler.py:9). -/
def ANY_TEXT_FIELD : String := "ANY TEXT!!"

/-- `GoogleFormHandler.FORM_SESSION_TYPE_ID` (google_form_handler.py:8). -/
def FORM_SESSION_TYPE_ID : Nat := 8

/-- The `type` value stored in an entry dict: either a numeric group-type id
(`entry[3]`) or the reserved string `"required"` used by the two synthetic
fields (google_form_handler.py:100, 110). -/
inductive TypeCode where
  | num : Nat → TypeCode
  | requiredTag : TypeCode
deriving DecidableEq

/-- The `options` value of an entry dict: `None`, a list of option labels
(parsed fields, google_form_handler.py:66), or a plain descriptive string
(synthetic fields, google_form_handler.py:102, 112). -/
inductive OptionsField where
  | null : OptionsField
  | ofList : List String → OptionsField
  | ofString : String → OptionsField
deriving DecidableEq

/-- A subfield record `sub_entry` of a field group (google_form_handler.py:57-66):
position 0 the numeric field id, position 1 the option records (each record's
position 0 is the label, which may be null/empty for the free-text sentinel),
position 2 the required flag, position 3 the name-path segments (an absent or
empty list models Python falsiness of `sub_entry[3]`). -/
structure SubEntry where
  id : Nat
  options : List (Option String)
  requiredFlag : Int
  namePath : List String
deriving DecidableEq

/-- A field group `entry` of `form_data[1][1]` (google_form_handler.py:50-57):
position 1 the group name, position 3 the group-type id, position 4 the
subfield records. -/
structure GroupEntry where
  name : String
  typeId : Nat
  subEntries : List SubEntry
deriving DecidableEq

/-- The decoded `FB_PUBLIC_LOAD_DATA_` tree, restricted to the positions the
handler reads: `form_data[1][1]` (the group list) and `form_data[1][10][6]`
(the email-collection setting). -/
structure FormData where
  groups : List GroupEntry
  emailSetting : Nat
deriving DecidableEq

/-- One parsed entry dict as built by `_parse_entry` / `parse_form_entries`
(google_form_handler.py:58-67, 97-103, 107-114).  The numeric ids of parsed
subfields are rendered by `Nat.repr`, matching how Python later formats the
integer id into `f"entry.\x7bentry['id']\x7d"`. -/
structure ParsedInfo where
  id : String
  container_name : String
  type : TypeCode
  required : Bool
  name : Option String
  options : OptionsField
  default_value : Option String
deriving DecidableEq

/-- `x[0] or self.ANY_TEXT_FIELD` (google_form_handler.py:66): a null or empty
label is replaced by the free-text sentinel. -/
def optLabel (x : Option String) : String :=
  match x with
  | none => ANY_TEXT_FIELD
  | some s => if s = "" then ANY_TEXT_FIELD else s

/-- One iteration of the loop of `_parse_entry` (google_form_handler.py:57-68). -/
def parseSubEntry (entryName : String) (entryTypeId : Nat) (se : SubEntry) : ParsedInfo :=
  { id := Nat.repr se.id
    container_name := entryName
    type := TypeCode.num entryTypeId
    required := se.requiredFlag = 1
    name := if se.namePath.isEmpty then none else some (String.intercalate " - " se.namePath)
    options := if se.options.isEmpty then OptionsField.null
               else OptionsField.ofList (se.options.map optLabel)
    default_value := none }

/-- The synthetic email field (google_form_handler.py:97-103). -/
def emailEntry : ParsedInfo :=
  { id := "emailAddress"
    container_name := "Email Address"
    type := TypeCode.requiredTag
    required := true
    options := OptionsField.ofString "email address"
    name := none
    default_value := none }

/-- The synthetic page-history field (google_form_handler.py:107-114); its
default value is `','.join(map(str, range(page_count + 1)))`. -/
def pageHistoryEntry (pageCount : Nat) : ParsedInfo :=
  { id := "pageHistory"
    container_name := "Page History"
    type := TypeCode.requiredTag
    required := false
    options := OptionsField.ofString "from 0 to (number of page - 1)"
    name := none
    default_value := some (String.intercalate "," ((List.range (pageCount + 1)).map Nat.repr)) }

/-- `self.page_count` after the group loop (google_form_handler.py:87-91): one
increment per group whose type id is the page-break constant. -/
def pageCountOf (fd : FormData) : Nat :=
  (fd.groups.filter (fun g => g.typeId = FORM_SESSION_TYPE_ID)).length

/-- The entries contributed by the group loop of `parse_form_entries`
(google_form_handler.py:87-93): page-break groups are skipped, every other
group contributes its parsed subfields in order. -/
def baseEntriesOf (fd : FormData) : List ParsedInfo :=
  (fd.groups.filter (fun g => ¬ g.typeId = FORM_SESSION_TYPE_ID)).flatMap
    (fun g => g.subEntries.map (parseSubEntry g.name g.typeId))

/-- The entries after the optional email append (google_form_handler.py:96-103). -/
def withEmailOf (fd : FormData) : List ParsedInfo :=
  if 1 < fd.emailSetting then baseEntriesOf fd ++ [emailEntry] else baseEntriesOf fd

/-- `parse_form_entries` (google_form_handler.py:71-118).  `none` models the
early `return None` when `form_data[1][1]` is empty/absent.  The loop skips
page-break groups (counting them) and concatenates the parsed subfields of the
others; the email field is appended when `form_data[1][10][6] > 1` and the
page-history field when the page count is positive. -/
def parse_form_entries (fd : FormData) : Option (List ParsedInfo) :=
  if fd.groups.isEmpty then none
  else
    let pc := pageCountOf fd
    if 0 < pc then some (withEmailOf fd ++ [pageHistoryEntry pc]) else some (withEmailOf fd)

/-- `get_form_type_value_rule` (google_form_handler.py:184-212). -/
def get_form_type_value_rule (t : TypeCode) : String :=
  match t with
  | TypeCode.num 0 => "短答案"
  | TypeCode.num 1 => "段落"
  | TypeCode.num 2 => "单选题"
  | TypeCode.num 3 => "下拉选择"
  | TypeCode.num 4 => "多选题"
  | TypeCode.num 5 => "线性量表"
  | TypeCode.num 7 => "网格选择"
  | TypeCode.num 9 => "日期"
  | TypeCode.num 10 => "时间"
  | TypeCode.requiredTag => "必填字段"
  | TypeCode.num _ => "通用文本"

/-- One row of the questions DataFrame (google_form_handler.py:162-171). -/
structure QuestionRow where
  entryId : String
  question : String
  required : Bool
  fieldType : String
  selectionType : Option String
  optionsText : Option String
deriving DecidableEq

/-- Python truthiness of the `options` dict value (google_form_handler.py:170). -/
def OptionsField.isTruthy : OptionsField → Bool
  | OptionsField.null => false
  | OptionsField.ofList l => ¬ l.isEmpty
  | OptionsField.ofString s => ¬ s = ""

/-- The `', '.join(entry['options'])` rendering (google_form_handler.py:170);
joining a plain string joins its characters, as Python does. -/
def OptionsField.joined : OptionsField → String
  | OptionsField.null => ""
  | OptionsField.ofList l => String.intercalate ", " l
  | OptionsField.ofString s => String.intercalate ", " (s.data.map (fun c => String.mk [c]))

/-- Building one row of the questions DataFrame from a parsed entry
(google_form_handler.py:144-172). -/
def questionRow (e : ParsedInfo) : QuestionRow :=
  { entryId := if ¬ e.type = TypeCode.requiredTag then "entry." ++ e.id else e.id
    question := e.container_name ++ (match e.name with
                 | some n => ": " ++ n
                 | none => "")
    required := e.required
    fieldType := get_form_type_value_rule e.type
    selectionType := match e.type with
      | TypeCode.num 2 => some "Single Choice"
      | TypeCode.num 3 => some "Dropdown"
      | TypeCode.num 4 => some "Multiple Choice"
      | _ => none
    optionsText := if e.options.isTruthy then some e.options.joined else none }

/-- `get_form_questions_df` (google_form_handler.py:120-182) on a handler whose
entries have not been parsed yet: parse, build one row per entry, drop the
page-history row, and optionally keep only required rows.  An empty DataFrame
is modelled by the empty list. -/
def get_form_questions_df (fd : FormData) (only_required : Bool) : List QuestionRow :=
  match parse_form_entries fd with
  | none => []
  | some entries =>
      let rows := entries.map questionRow
      let rows := rows.filter (fun r => ¬ r.entryId = "pageHistory")
      if only_required then rows.filter (fun r => r.required) else rows

/-- `pattern` starts the list (character-by-character comparison). -/
def startsWithL : List Char → List Char → Bool
  | [], _ => true
  | _ :: _, [] => false
  | p :: ps, c :: cs => p = c && startsWithL ps cs

/-- Python's substring test `pattern in s` on character lists. -/
def containsL (pat : List Char) : List Char → Bool
  | [] => startsWithL pat []
  | c :: cs => startsWithL pat (c :: cs) || containsL pat cs

/-- `field_id.startswith('entry.')` (app.py:734). -/
def startsEntry (k : String) : Bool :=
  startsWithL "entry.".data k.data

/-- The key written into `formatted_data` for a present value (app.py:733-737):
keys already carrying the `entry.` lead pass through, all others get it
prepended. -/
def wireKey (k : String) : String :=
  if startsEntry k then k else "entry." ++ k

/-- The loop of app.py:727-737: walk the required rows in order, collecting the
question texts of rows whose id is absent from the submission map or mapped to
a falsy (empty) value, and the re-keyed pairs of the present ones. -/
def missingAndFormatted (fm : List (String × String)) :
    List QuestionRow → List String × List (String × String)
  | [] => ([], [])
  | row :: rest =>
      let acc := missingAndFormatted fm rest
      match fm.lookup row.entryId with
      | none => (row.question :: acc.1, acc.2)
      | some v =>
          if v = "" then (row.question :: acc.1, acc.2)
          else (acc.1, (wireKey row.entryId, v) :: acc.2)

/-- Outcome of the final submission step of app.py:722-746. -/
inductive SubmitAction where
  | errorMissing : List String → SubmitAction
  | httpSubmit : List (String × String) → SubmitAction
deriving DecidableEq

/-- The submission step of `main` (app.py:722-746): fetch the required rows of
the form, cross-check them against the submission map, report every missing
required question and stop without an HTTP request if any, otherwise POST the
formatted data. -/
def submitStep (fd : FormData) (fm : List (String × String)) : SubmitAction :=
  let requiredRows := get_form_questions_df fd true
  let acc := missingAndFormatted fm requiredRows
  if acc.1.isEmpty then SubmitAction.httpSubmit acc.2 else SubmitAction.errorMissing acc.1

/-- A row's id is absent from the map or mapped to an empty value
(the condition of app.py:730). -/
def offendingRow (fm : List (String × String)) (row : QuestionRow) : Bool :=
  match fm.lookup row.entryId with
  | none => true
  | some v => v = ""

/-- A `QueryEvent` as sent by `parse_form`
(rag_workflow_with_human_feedback.py:178-184). -/
structure QueryEv where
  query : String
  field : String
  entry_id : String
  required : Bool
deriving DecidableEq

/-- A `ResponseEvent` as returned by `ask_question`
(rag_workflow_with_human_feedback.py:225-230, 245-250). -/
structure ResponseEv where
  response : String
  field : String
  entry_id : String
  required : Bool
deriving DecidableEq

/-- Rendering of a record value in an f-string: Python prints `None` for a
missing optional value. -/
def pyShowOpt : Option String → String
  | none => "None"
  | some s => s

/-- The per-field query text built by `parse_form`
(rag_workflow_with_human_feedback.py:147-175); one of three templates keyed by
the row's selection type, with the feedback block appended verbatim on a
revise cycle.  Newlines and the indentation inherent in the Python
triple-quoted literals are not reproduced; the textual parts appear in source
order. -/
def queryText (row : QuestionRow) (feedback : Option String) : String :=
  let base :=
    if row.selectionType = some "Single Choice" ∨ row.selectionType = some "Dropdown" then
      "根据候选人的简历，以下哪个选项最能回答该问题？ 问题ID：" ++ row.entryId ++
        " 问题：" ++ row.question ++ " 选项：" ++ pyShowOpt row.optionsText ++
        " 请根据候选人的经历和资质，选择最合适的选项。"
    else if row.selectionType = some "Multiple Choice" then
      "根据候选人的简历，以下哪些选项符合该问题要求？ 问题ID：" ++ row.entryId ++
        " 问题：" ++ row.question ++ " 选项：" ++ pyShowOpt row.optionsText ++
        " 请根据候选人的经历和资质，选择所有相关选项。"
    else
      "根据候选人的简历，请为以下问题提供事实性答案： 问题ID：" ++ row.entryId ++
        " 问题：" ++ row.question ++ " 回答请具体、简洁。"
  match feedback with
  | some fb => base ++ " 此前我们收到了关于该问题回答的反馈（可能与当前字段无关，但供参考）： <反馈内容> " ++
      fb ++ " </反馈内容>"
  | none => base

/-- The `QueryEvent` sent for one field (rag_workflow_with_human_feedback.py:178-184). -/
def mkQueryEvent (feedback : Option String) (row : QuestionRow) : QueryEv :=
  { query := queryText row feedback
    field := row.question
    entry_id := row.entryId
    required := row.required }

/-- `parse_form` (rag_workflow_with_human_feedback.py:128-188): one query event
per field of the form data, and `total_fields` set to the number of fields.
`feedback` is `some` exactly on a revise cycle (a `FeedbackEvent`). -/
def parse_form (fields : List QuestionRow) (feedback : Option String) :
    List QueryEv × Nat :=
  (fields.map (mkQueryEvent feedback), fields.length)

/-- The response text `ask_question` settles on
(rag_workflow_with_human_feedback.py:205-221): the query engine's text when the
engine call succeeds with a truthy response, otherwise the direct LLM
completion when it succeeds with truthy text, otherwise nothing (the outer
exception handler runs).  `none`/empty model a raised error or a falsy reply. -/
def usableText (engineText llmText : Option String) : Option String :=
  match engineText with
  | some t => if t = "" then (match llmText with
      | some u => if u = "" then none else some u
      | none => none) else some t
  | none => match llmText with
      | some u => if u = "" then none else some u
      | none => none

/-- The standardized fallback text of rag_workflow_with_human_feedback.py:236-239. -/
def fallbackBase : String := "目前无法处理该问题。" ++ "若这是必填项，请重试或手动填写相关信息。"

/-- The required-field marker of rag_workflow_with_human_feedback.py:242-243. -/
def requiredMark : String := "（这是必填项）"

/-- `ask_question` (rag_workflow_with_human_feedback.py:191-250): answer with
the first usable text from the query engine or the LLM; on total failure,
substitute the fallback text, with the required marker appended when the
field is required, and still emit a `ResponseEvent` carrying the field data. -/
def ask_question (engineText llmText : Option String) (q : QueryEv) : ResponseEv :=
  match usableText engineText llmText with
  | some t => { response := t, field := q.field, entry_id := q.entry_id, required := q.required }
  | none =>
      { response := fallbackBase ++ (if q.required then requiredMark else "")
        field := q.field
        entry_id := q.entry_id
        required := q.required }

/-- Model of the event-buffer barrier `ctx.collect_events(ev, [ResponseEvent]*total_fields)`
(rag_workflow_with_human_feedback.py:257; llama_index `Context.collect_events`):
arriving events are buffered in arrival order, and the call releases the first
`expected` buffered events once at least `expected` have arrived, returning
`None` until then. -/
def collect_events (buffer : List ResponseEv) (expected : Nat) : Option (List ResponseEv) :=
  if expected ≤ buffer.length then some (buffer.take expected) else none

/-- One display answer record, `\x7b"entry_id", "question", "answer"\x7d`
(rag_workflow_with_human_feedback.py:288-293, 318-323). -/
structure RawAnswer where
  entry_id : String
  question : String
  answer : String
deriving DecidableEq

/-- The fallback construction `\x7b... for r in responses\x7d`
(rag_workflow_with_human_feedback.py:317-324 and 353-361). -/
def mkRawAnswer (r : ResponseEv) : RawAnswer :=
  { entry_id := r.entry_id, question := r.field, answer := r.response }

/-- Insertion into a Python dict: an existing key is updated in place, a new
key is appended (rag_workflow_with_human_feedback.py:327-330). -/
def dictInsert (m : List (String × String)) (k v : String) : List (String × String) :=
  if (m.lookup k).isSome then m.map (fun kv => if kv.1 = k then (k, v) else kv)
  else m ++ [(k, v)]

/-- `submission_data` built from the answers list
(rag_workflow_with_human_feedback.py:327-330, 364-367). -/
def buildSubmission (answers : List RawAnswer) : List (String × String) :=
  answers.foldl (fun m a => dictInsert m a.entry_id a.answer) []

/-- The `final_data` dict handed to review: `display` (the answers list shown
to the human) and `submission` (rag_workflow_with_human_feedback.py:333-336). -/
structure FinalData where
  display : List RawAnswer
  submission : List (String × String)
deriving DecidableEq

/-- `fill_in_application` (rag_workflow_with_human_feedback.py:253-384).
`buffer` is the arrival-ordered event buffer behind `collect_events`;
`form_data` is fetched from the context but unused by the source after that;
`parsedOut` abstracts the consolidating LLM call: `some answers` when its
cleaned output parses as JSON with an `answers` list, `none` when parsing
fails (or the `answers` key is missing), in which case the fallback builds the
answers directly from the collected responses, in collection order.  `none`
as the overall result models the early `return None` before the barrier is
full: the consolidation call is not made. -/
def fill_in_application (total_fields : Nat) (buffer : List ResponseEv)
    (form_data : List QuestionRow) (parsedOut : Option (List RawAnswer)) :
    Option FinalData :=
  match collect_events buffer total_fields with
  | none => none
  | some responses =>
      let answers :=
        match parsedOut with
        | some provided => provided
        | none => responses.map mkRawAnswer
      some { display := answers, submission := buildSubmission answers }

/-- The two brace characters, written by code point. -/
def lbrace : Char := Char.ofNat 123

/-- Closing brace character. -/
def rbrace : Char := Char.ofNat 125

/-- Python `str.strip()` on a character list (leading and trailing whitespace
removed; the source only ever strips ASCII whitespace). -/
def pyStrip (l : List Char) : List Char :=
  ((l.dropWhile Char.isWhitespace).reverse.dropWhile Char.isWhitespace).reverse

/-- Python `str.replace('\\boxed\x7b', '')`: remove every (left-to-right,
non-overlapping) occurrence of the seven-character pattern. -/
def removeBoxed : List Char → List Char
  | '\\' :: 'b' :: 'o' :: 'x' :: 'e' :: 'd' :: d :: rest =>
      if d = lbrace then removeBoxed rest
      else '\\' :: removeBoxed ('b' :: 'o' :: 'x' :: 'e' :: 'd' :: d :: rest)
  | c :: rest => c :: removeBoxed rest
  | [] => []

/-- Python `str.replace('\x7d', '')`: drop every closing brace. -/
def removeRBrace (l : List Char) : List Char :=
  l.filter (fun c => ¬ c = rbrace)

/-- The verdict normalization of `get_feedback`
(rag_workflow_with_human_feedback.py:405-409): strip, remove `\\boxed\x7b`
sequences and every `\x7d`, strip again, uppercase. -/
def normalizeVerdict (text : String) : String :=
  String.mk ((pyStrip (removeRBrace (removeBoxed (pyStrip text.data)))).map Char.toUpper)

/-- Modelled from the spec: "Wrapping artifacts are stripped before
comparison" — the spec-side stripping, before any case folding. -/
def specStripArtifacts (text : String) : String :=
  String.mk (pyStrip (removeRBrace (removeBoxed (pyStrip text.data))))

/-- Modelled from the spec: "the check is case-insensitive substring match" —
both sides are folded to upper case before the substring test. -/
def specCiHasToken (s tok : String) : Bool :=
  containsL (tok.data.map Char.toUpper) (s.data.map Char.toUpper)

/-- Outcome of the `get_feedback` step
(rag_workflow_with_human_feedback.py:387-438).  `stepFailure` models an
exception escaping the step (the `llm.complete` call of line 389 is not
guarded by any handler, so a raised error fails the workflow run);
`approveStop` the `StopEvent` carrying the submission map (line 427);
`reviseFeedback` the `FeedbackEvent` re-entering the answer cycle (line 438). -/
inductive FeedbackOutcome where
  | stepFailure : FeedbackOutcome
  | approveStop : List (String × String) → FeedbackOutcome
  | reviseFeedback : String → FeedbackOutcome
deriving DecidableEq

/-- `get_feedback` (rag_workflow_with_human_feedback.py:387-438).  `llmReply`
is the classification call's reply text, `none` when the call raises;
`humanResp` is the human's free-text response `ev.response`; `filled_form` is
the context value set by `fill_in_application` (`none` models a falsy value,
which skips the approval block entirely). -/
def get_feedback (llmReply : Option String) (humanResp : String)
    (filled_form : Option FinalData) : FeedbackOutcome :=
  match llmReply with
  | none => FeedbackOutcome.stepFailure
  | some text =>
      let verdict := normalizeVerdict text
      match filled_form with
      | some fd =>
          if containsL "OKAY".data verdict.data then FeedbackOutcome.approveStop fd.submission
          else FeedbackOutcome.reviseFeedback humanResp
      | none => FeedbackOutcome.reviseFeedback humanResp

/-- A Python-level outcome: a produced value or a raised exception. -/
inductive PyResult (α : Type) where
  | ok : α → PyResult α
  | exn : String → PyResult α
deriving DecidableEq

/-- The keyword parameters accepted by `parse_form_entries`
(`def parse_form_entries(self):`, google_form_handler.py:71): none. -/
def parse_form_entries_params : List String := []

/-- Whether the class body of `GoogleFormHandler` defines
`generate_form_request_dict`: it does not (the call at
google_form_handler.py:253 names a method that exists nowhere in the file). -/
def generate_form_request_dict_defined : Bool := false

/-- CPython call semantics: passing a keyword argument that is not among the
callee's parameters raises `TypeError` before the callee's body runs. -/
def callWithKeyword (params : List String) (kw : String) (run : Unit → PyResult α) :
    PyResult α :=
  if kw ∈ params then run () else PyResult.exn "TypeError"

/-- Python truthiness of `self.entries` (`if not self.entries`,
google_form_handler.py:241, 249): unset (`None`) and the empty list are falsy. -/
def entriesTruthy : Option (List ParsedInfo) → Bool
  | none => false
  | some l => ¬ l.isEmpty

/-- `get_form_submit_request` (google_form_handler.py:238-267), with
`output="return"` and no fill algorithm.  When the stored entries are falsy it
invokes `self.parse_form_entries(only_required=only_required)`, whose keyword
is rejected by the callee's parameter list; past that gate, a truthy entries
list reaches the `self.generate_form_request_dict(...)` call, whose attribute
lookup raises `AttributeError` because the method is not defined; falsy
entries after the parse attempt return `None` (modelled as `ok none`). -/
def get_form_submit_request (fd : FormData) (entries : Option (List ParsedInfo))
    (only_required : Bool) : PyResult (Option (List (String × String))) :=
  let afterParse : PyResult (Option (List ParsedInfo)) :=
    if ¬ entriesTruthy entries then
      callWithKeyword parse_form_entries_params "only_required"
        (fun _ => PyResult.ok (parse_form_entries fd))
    else PyResult.ok entries
  match afterParse with
  | PyResult.exn e => PyResult.exn e
  | PyResult.ok newEntries =>
      if ¬ entriesTruthy newEntries then PyResult.ok none
      else if generate_form_request_dict_defined then PyResult.ok (some [])
      else PyResult.exn "AttributeError"

/-- A concrete decoded form: one ordinary group holding one required subfield
with numeric id 1001, one page-break group, and email collection enabled. -/
def fdA : FormData :=
  { groups := [ { name := "Name", typeId := 0,
                  subEntries := [ { id := 1001, options := [], requiredFlag := 1, namePath := [] } ] },
                { name := "", typeId := 8, subEntries := [] } ]
    emailSetting := 2 }

/-- The parsed entries of `fdA`. -/
def entriesA : List ParsedInfo :=
  [ parseSubEntry "Name" 0 { id := 1001, options := [], requiredFlag := 1, namePath := [] },
    emailEntry, pageHistoryEntry 1 ]

/-- A concrete two-field schema, in display order. -/
def rowsB : List QuestionRow :=
  [ { entryId := "entry.1", question := "Q1", required := true, fieldType := "短答案",
      selectionType := none, optionsText := none },
    { entryId := "entry.2", question := "Q2", required := false, fieldType := "短答案",
      selectionType := none, optionsText := none } ]

/-- The per-field response for the first row of `rowsB`. -/
def r1 : ResponseEv := { response := "ans1", field := "Q1", entry_id := "entry.1", required := true }

/-- The per-field response for the second row of `rowsB`. -/
def r2 : ResponseEv := { response := "ans2", field := "Q2", entry_id := "entry.2", required := false }

/-- A concrete filled form held in the workflow context. -/
def fd0 : FinalData :=
  { display := [ { entry_id := "entry.1", question := "Q1", answer := "A1" } ]
    submission := [("entry.1", "A1")] }

/-- A concrete query event. -/
def q0 : QueryEv := { query := "query text", field := "Q9", entry_id := "entry.9", required := true }

theorem mem_withEmailOf {fd : FormData} {e : ParsedInfo} (h : e ∈ withEmailOf fd) :
    (∃ g se, g ∈ fd.groups ∧ ¬ g.typeId = FORM_SESSION_TYPE_ID ∧ se ∈ g.subEntries
      ∧ e = parseSubEntry g.name g.typeId se) ∨ e = emailEntry := by
  unfold withEmailOf at h
  have hbase : e ∈ baseEntriesOf fd →
      ∃ g se, g ∈ fd.groups ∧ ¬ g.typeId = FORM_SESSION_TYPE_ID ∧ se ∈ g.subEntries
        ∧ e = parseSubEntry g.name g.typeId se := by
    intro hb
    unfold baseEntriesOf at hb
    rcases List.mem_flatMap.mp hb with ⟨g, hg, hmem⟩
    rcases List.mem_filter.mp hg with ⟨hgroups, hgt⟩
    rcases List.mem_map.mp hmem with ⟨se, hse, he⟩
    exact ⟨g, se, hgroups, by simpa using hgt, hse, he.symm⟩
  by_cases hmail : 1 < fd.emailSetting
  · rw [if_pos hmail] at h
    rcases List.mem_append.mp h with hb | hm
    · exact Or.inl (hbase hb)
    · exact Or.inr (by simpa using hm)
  · rw [if_neg hmail] at h
    exact Or.inl (hbase h)

theorem parse_entries_cases {fd : FormData} {entries : List ParsedInfo}
    (h : parse_form_entries fd = some entries) :
    (0 < pageCountOf fd ∧ entries = withEmailOf fd ++ [pageHistoryEntry (pageCountOf fd)])
    ∨ (pageCountOf fd = 0 ∧ entries = withEmailOf fd) := by
  unfold parse_form_entries at h
  by_cases hg : fd.groups.isEmpty
  · rw [if_pos hg] at h; exact absurd h (by simp)
  · rw [if_neg hg] at h
    by_cases hpc : 0 < pageCountOf fd
    · rw [if_pos hpc] at h
      exact Or.inl ⟨hpc, (Option.some.injEq _ _ ▸ h).symm⟩
    · rw [if_neg hpc] at h
      exact Or.inr ⟨by omega, (Option.some.injEq _ _ ▸ h).symm⟩

theorem pageHistory_not_mem_withEmail (fd : FormData) (pc : Nat) :
    ¬ pageHistoryEntry pc ∈ withEmailOf fd := by
  intro h
  rcases mem_withEmailOf h with ⟨g, se, _, _, _, he⟩ | he
  · have ht := congrArg ParsedInfo.type he
    simp [pageHistoryEntry, parseSubEntry] at ht
  · have hi := congrArg ParsedInfo.id he
    simp only [pageHistoryEntry, emailEntry] at hi
    exact absurd hi (by decide)

theorem mf_missing (fm : List (String × String)) :
    ∀ rf : List QuestionRow,
      (missingAndFormatted fm rf).1 = (rf.filter (offendingRow fm)).map QuestionRow.question := by
  intro rf
  induction rf with
  | nil => rfl
  | cons row rest ih =>
      simp only [missingAndFormatted, List.filter_cons]
      cases h : fm.lookup row.entryId with
      | none => simp [offendingRow, h, ih]
      | some v =>
          by_cases hv : v = ""
          · simp [offendingRow, h, hv, ih]
          · simp [offendingRow, h, hv, ih]

theorem mf_formatted (fm : List (String × String)) :
    ∀ (rf : List QuestionRow) (kv : String × String), kv ∈ (missingAndFormatted fm rf).2 →
      ∃ row ∈ rf, kv.1 = wireKey row.entryId ∧ fm.lookup row.entryId = some kv.2 := by
  intro rf
  induction rf with
  | nil => intro kv h; exact absurd h (by simp [missingAndFormatted])
  | cons row rest ih =>
      intro kv h
      simp only [missingAndFormatted] at h
      cases hl : fm.lookup row.entryId with
      | none =>
          simp only [hl] at h
          rcases ih kv h with ⟨r, hr, hk, hv⟩
          exact ⟨r, List.mem_cons_of_mem _ hr, hk, hv⟩
      | some v =>
          simp only [hl] at h
          by_cases hv : v = ""
          · rw [if_pos hv] at h
            rcases ih kv h with ⟨r, hr, hk, hval⟩
            exact ⟨r, List.mem_cons_of_mem _ hr, hk, hval⟩
          · rw [if_neg hv] at h
            rcases List.mem_cons.mp h with hkv | hkv
            · refine ⟨row, List.mem_cons_self _ _, ?_, ?_⟩
              · rw [hkv]
              · rw [hl, hkv]
            · rcases ih kv hkv with ⟨r, hr, hk, hval⟩
              exact ⟨r, List.mem_cons_of_mem _ hr, hk, hval⟩

/-- C1 (amended): when the question table is built, a field's wire key is
`"entry." + id` for fields whose type is not the reserved `"required"` marker
(exactly the parsed fields, whose ids are numeric), and the id itself for the
two provider-reserved ids; but when the final submission payload is keyed,
every required field's key is put through `wireKey`, which prepends `"entry."`
to any key not already starting with it — including the reserved id
`"emailAddress"`, which therefore does not pass through unmodified there. -/
theorem C1_amended_wire_keys :
    (∀ (fd : FormData) (entries : List ParsedInfo), parse_form_entries fd = some entries →
      ∀ e ∈ entries,
        (questionRow e).entryId
            = (if e.type = TypeCode.requiredTag then e.id else "entry." ++ e.id)
        ∧ (¬ e.type = TypeCode.requiredTag → ∃ n : Nat, e.id = Nat.repr n)
        ∧ (e.type = TypeCode.requiredTag → e.id = "emailAddress" ∨ e.id = "pageHistory"))
    ∧ (∀ (fm : List (String × String)) (rf : List QuestionRow) (kv : String × String),
        kv ∈ (missingAndFormatted fm rf).2 →
        ∃ row ∈ rf, kv.1 = wireKey row.entryId ∧ fm.lookup row.entryId = some kv.2) := by
  constructor
  · intro fd entries hp e he
    have hcase : (∃ g se, e = parseSubEntry (GroupEntry.name g) (GroupEntry.typeId g) se)
        ∨ e = emailEntry ∨ ∃ pc, e = pageHistoryEntry pc := by
      rcases parse_entries_cases hp with ⟨_, hent⟩ | ⟨_, hent⟩
      · rw [hent] at he
        rcases List.mem_append.mp he with hw | hph
        · rcases mem_withEmailOf hw with ⟨g, se, _, _, _, hpe⟩ | hm
          · exact Or.inl ⟨g, se, hpe⟩
          · exact Or.inr (Or.inl hm)
        · exact Or.inr (Or.inr ⟨_, by simpa using hph⟩)
      · rw [hent] at he
        rcases mem_withEmailOf he with ⟨g, se, _, _, _, hpe⟩ | hm
        · exact Or.inl ⟨g, se, hpe⟩
        · exact Or.inr (Or.inl hm)
    refine ⟨?_, ?_, ?_⟩
    · by_cases ht : e.type = TypeCode.requiredTag
      · simp [questionRow, ht]
      · simp [questionRow, ht]
    · intro ht
      rcases hcase with ⟨g, se, hpe⟩ | he' | ⟨pc, he'⟩
      · exact ⟨se.id, by rw [hpe]; rfl⟩
      · rw [he'] at ht; exact absurd rfl ht
      · rw [he'] at ht; exact absurd rfl ht
    · intro ht
      rcases hcase with ⟨g, se, hpe⟩ | he' | ⟨pc, he'⟩
      · rw [hpe] at ht; exact absurd ht (by simp [parseSubEntry])
      · exact Or.inl (by rw [he']; rfl)
      · exact Or.inr (by rw [he']; rfl)
  · intro fm
    exact mf_formatted fm

/-- Witness for C1 (amended): the synthetic email field's question-table key
is the reserved id itself. -/
theorem C1_amended_wire_keys_w :
    (questionRow emailEntry).entryId
      = (if emailEntry.type = TypeCode.requiredTag then emailEntry.id
         else "entry." ++ emailEntry.id) :=
  (C1_amended_wire_keys.1 fdA entriesA (by decide) emailEntry (by decide)).1

/-- Counterexample to C1 as stated: in the final submission payload built by
app.py:727-737 the reserved non-numeric id `emailAddress` is keyed as
`entry.emailAddress`, not as the id itself, although the question table keys
it as `emailAddress`. -/
theorem C1_reserved_id_not_passthrough :
    submitStep fdA [("entry.1001", "Bob"), ("emailAddress", "a@b.c")]
      = SubmitAction.httpSubmit [("entry.1001", "Bob"), ("entry.emailAddress", "a@b.c")]
    ∧ (questionRow emailEntry).entryId = "emailAddress"
    ∧ ¬ ("entry.emailAddress" : String) = "emailAddress" := by decide

/-- C2: on a paginated form the decoder appends a page-history entry carrying
the computed default value, but the submission step of app.py:722-746 builds
the payload only from required rows present in the submission map — the
page-history field (and its default value) is never injected into the payload. -/
theorem C2_page_history_not_injected :
    parse_form_entries fdA = some entriesA
    ∧ entriesA.getLast? = some (pageHistoryEntry 1)
    ∧ (pageHistoryEntry 1).default_value = some "0,1"
    ∧ submitStep fdA [("entry.1001", "Bob"), ("emailAddress", "a@b.c")]
        = SubmitAction.httpSubmit [("entry.1001", "Bob"), ("entry.emailAddress", "a@b.c")]
    ∧ ¬ ("pageHistory" ∈ ([("entry.1001", "Bob"), ("entry.emailAddress", "a@b.c")]
          : List (String × String)).map Prod.fst)
    ∧ ¬ ("entry.pageHistory" ∈ ([("entry.1001", "Bob"), ("entry.emailAddress", "a@b.c")]
          : List (String × String)).map Prod.fst)
    ∧ ¬ ("0,1" ∈ ([("entry.1001", "Bob"), ("entry.emailAddress", "a@b.c")]
          : List (String × String)).map Prod.snd) := by decide

/-- C3: the submission step errors iff some required row's id is absent from
or empty in the submission map; the error lists every offending row's question
text, in order; and in that case no HTTP submit happens. -/
theorem C3_missing_required_iff (fd : FormData) (fm : List (String × String)) :
    ((∃ qs, submitStep fd fm = SubmitAction.errorMissing qs)
        ↔ ∃ row ∈ get_form_questions_df fd true, offendingRow fm row = true)
    ∧ (∀ qs, submitStep fd fm = SubmitAction.errorMissing qs →
        qs = ((get_form_questions_df fd true).filter (offendingRow fm)).map QuestionRow.question)
    ∧ (∀ qs, submitStep fd fm = SubmitAction.errorMissing qs →
        ∀ p, ¬ submitStep fd fm = SubmitAction.httpSubmit p) := by
  have hm := mf_missing fm (get_form_questions_df fd true)
  by_cases he : (missingAndFormatted fm (get_form_questions_df fd true)).1.isEmpty
  · have hsub : submitStep fd fm
        = SubmitAction.httpSubmit (missingAndFormatted fm (get_form_questions_df fd true)).2 := by
      simp only [submitStep]
      rw [if_pos he]
    have hnil : ((get_form_questions_df fd true).filter (offendingRow fm)).map QuestionRow.question = [] := by
      rw [← hm]; exact List.isEmpty_iff.mp he
    refine ⟨⟨?_, ?_⟩, ?_, ?_⟩
    · rintro ⟨qs, hqs⟩
      rw [hsub] at hqs
      exact absurd hqs (by simp)
    · rintro ⟨row, hrow, hoff⟩
      have : row ∈ (get_form_questions_df fd true).filter (offendingRow fm) :=
        List.mem_filter.mpr ⟨hrow, hoff⟩
      rw [List.map_eq_nil_iff.mp hnil] at this
      exact absurd this (by simp)
    · intro qs hqs
      rw [hsub] at hqs
      exact absurd hqs (by simp)
    · intro qs hqs
      rw [hsub] at hqs
      exact absurd hqs (by simp)
  · have hsub : submitStep fd fm
        = SubmitAction.errorMissing (missingAndFormatted fm (get_form_questions_df fd true)).1 := by
      simp only [submitStep]
      rw [if_neg he]
    refine ⟨⟨?_, ?_⟩, ?_, ?_⟩
    · intro _
      have hne : ¬ (missingAndFormatted fm (get_form_questions_df fd true)).1 = [] := by
        intro h0; exact he (List.isEmpty_iff.mpr h0)
      rw [hm] at hne
      have hfne : ¬ ((get_form_questions_df fd true).filter (offendingRow fm)) = [] := by
        intro h0; exact hne (by rw [h0]; rfl)
      rcases List.exists_mem_of_ne_nil _ hfne with ⟨row, hrow⟩
      exact ⟨row, List.mem_of_mem_filter hrow, (List.mem_filter.mp hrow).2⟩
    · intro _
      exact ⟨_, hsub⟩
    · intro qs hqs
      rw [hsub] at hqs
      have := (SubmitAction.errorMissing.injEq _ _ ▸ hqs)
      rw [← this, hm]
    · intro qs _ p hp
      rw [hsub] at hp
      exact absurd hp (by simp)

/-- Witness for C3: with an empty submission map, both required rows of `fdA`
are reported, by question text, in order. -/
theorem C3_missing_required_iff_w :
    submitStep fdA [] = SubmitAction.errorMissing ["Name", "Email Address"]
    ∧ (["Name", "Email Address"]
        = ((get_form_questions_df fdA true).filter (offendingRow [])).map QuestionRow.question) :=
  ⟨by decide, (C3_missing_required_iff fdA []).2.1 ["Name", "Email Address"] (by decide)⟩

/-- C4: one query is dispatched per field (`N` = field count), and the
consolidation body never runs on fewer than `N` collected responses: the
barrier releases exactly `N` responses, and with fewer than `N` buffered the
step returns before consolidating. -/
theorem C4_barrier (fields : List QuestionRow) (fb : Option String)
    (buffer : List ResponseEv) (fdata : List QuestionRow)
    (po : Option (List RawAnswer)) (hN : 0 < fields.length) :
    (parse_form fields fb).1.length = (parse_form fields fb).2
    ∧ (∀ out, fill_in_application (parse_form fields fb).2 buffer fdata po = some out →
        ∃ rs, collect_events buffer (parse_form fields fb).2 = some rs
          ∧ rs.length = (parse_form fields fb).2)
    ∧ (buffer.length < (parse_form fields fb).2 →
        fill_in_application (parse_form fields fb).2 buffer fdata po = none) := by
  refine ⟨by simp [parse_form], ?_, ?_⟩
  · intro out hout
    simp only [parse_form] at hout ⊢
    by_cases hle : fields.length ≤ buffer.length
    · refine ⟨buffer.take fields.length, ?_, ?_⟩
      · simp [collect_events, hle]
      · rw [List.length_take]
        omega
    · exfalso
      simp [fill_in_application, collect_events, hle] at hout
  · intro hlt
    simp only [parse_form] at hlt ⊢
    have hle : ¬ fields.length ≤ buffer.length := by omega
    simp [fill_in_application, collect_events, hle]

/-- Witness for C4: with a two-field schema and only one buffered response the
step yields nothing; and one query event is sent per field. -/
theorem C4_barrier_w :
    (parse_form rowsB none).1.length = (parse_form rowsB none).2
    ∧ fill_in_application (parse_form rowsB none).2 [r2] rowsB none = none :=
  ⟨(C4_barrier rowsB none [r2] rowsB none (by decide)).1,
   (C4_barrier rowsB none [r2] rowsB none (by decide)).2.2 (by decide)⟩

/-- C5: with the classification reply delivered and the filled form present,
the run approves exactly when the artifact-stripped reply contains the token
`OKAY` under case-insensitive substring match, and otherwise the outcome is
Revise (a `FeedbackEvent`). -/
theorem C5_verdict_match (reply humanResp : String) (fd : FinalData) :
    (get_feedback (some reply) humanResp (some fd) = FeedbackOutcome.approveStop fd.submission
      ↔ specCiHasToken (specStripArtifacts reply) "OKAY" = true)
    ∧ (specCiHasToken (specStripArtifacts reply) "OKAY" = false →
        get_feedback (some reply) humanResp (some fd)
          = FeedbackOutcome.reviseFeedback humanResp) := by
  have hok : ("OKAY".data.map Char.toUpper) = "OKAY".data := by decide
  have heq : specCiHasToken (specStripArtifacts reply) "OKAY"
      = containsL "OKAY".data (normalizeVerdict reply).data := by
    simp only [specCiHasToken, hok]
    rfl
  by_cases hc : containsL "OKAY".data (normalizeVerdict reply).data = true
  · have hg : get_feedback (some reply) humanResp (some fd)
        = FeedbackOutcome.approveStop fd.submission := by
      simp [get_feedback, hc]
    refine ⟨⟨fun _ => by rw [heq]; exact hc, fun _ => hg⟩, ?_⟩
    intro hfalse
    rw [heq] at hfalse
    rw [hfalse] at hc
    exact absurd hc (by simp)
  · have hcf : containsL "OKAY".data (normalizeVerdict reply).data = false := by
      revert hc
      cases containsL "OKAY".data (normalizeVerdict reply).data <;> simp
    have hg : get_feedback (some reply) humanResp (some fd)
        = FeedbackOutcome.reviseFeedback humanResp := by
      simp [get_feedback, hcf]
    refine ⟨⟨?_, ?_⟩, fun _ => hg⟩
    · intro h
      rw [hg] at h
      exact absurd h (by simp)
    · intro htrue
      rw [heq] at htrue
      rw [htrue] at hcf
      exact absurd hcf (by simp)

/-- Witness for C5: a reply wrapped in a boxed artifact with mixed case is
stripped and approved. -/
theorem C5_verdict_match_w :
    get_feedback (some "\\boxed\x7bOkay, looks good\x7d") "ok" (some fd0)
      = FeedbackOutcome.approveStop fd0.submission :=
  ((C5_verdict_match "\\boxed\x7bOkay, looks good\x7d" "ok" fd0).1).mpr (by decide)

/-- C6 (amended): a failure of the classification call itself propagates out
of the step and fails the run (it is not converted into a Revise outcome),
and in particular a classification failure never approves. -/
theorem C6_amended_failure_fails_run (humanResp : String) (filled : Option FinalData) :
    get_feedback none humanResp filled = FeedbackOutcome.stepFailure
    ∧ ∀ sub, ¬ get_feedback none humanResp filled = FeedbackOutcome.approveStop sub := by
  refine ⟨rfl, ?_⟩
  intro sub h
  simp [get_feedback] at h

/-- Witness for C6 (amended): a concrete failed classification call does not
approve. -/
theorem C6_amended_failure_fails_run_w :
    ¬ get_feedback none "ok" (some fd0) = FeedbackOutcome.approveStop fd0.submission :=
  (C6_amended_failure_fails_run "ok" (some fd0)).2 fd0.submission

/-- Counterexample to C6 as stated: when the classification call fails, the
step raises (the run fails); the outcome is not the Revise transition the
claim describes. -/
theorem C6_failure_not_revise :
    get_feedback none "请修改联系方式" (some fd0) = FeedbackOutcome.stepFailure
    ∧ ¬ get_feedback none "请修改联系方式" (some fd0)
        = FeedbackOutcome.reviseFeedback "请修改联系方式" := by decide

/-- C7: for a decoded schema, the page-history descriptor is appended exactly
when the page count is positive (and only at the end), its default value is
the comma-joined sequence `0..pageCount` inclusive, and no row surfaced by the
question table — the data fed to review and to the answer pipeline — ever
carries the page-history id. -/
theorem C7_page_history_field (fd : FormData) (entries : List ParsedInfo)
    (hp : parse_form_entries fd = some entries) :
    (0 < pageCountOf fd →
        entries = withEmailOf fd ++ [pageHistoryEntry (pageCountOf fd)]
        ∧ ∀ pc, ¬ pageHistoryEntry pc ∈ withEmailOf fd)
    ∧ (pageCountOf fd = 0 → ∀ pc, ¬ pageHistoryEntry pc ∈ entries)
    ∧ (pageHistoryEntry (pageCountOf fd)).default_value
        = some (String.intercalate "," ((List.range (pageCountOf fd + 1)).map Nat.repr))
    ∧ (∀ (b : Bool) (row : QuestionRow), row ∈ get_form_questions_df fd b →
        ¬ row.entryId = "pageHistory") := by
  refine ⟨?_, ?_, rfl, ?_⟩
  · intro hpc
    rcases parse_entries_cases hp with ⟨_, hent⟩ | ⟨h0, _⟩
    · exact ⟨hent, fun pc => pageHistory_not_mem_withEmail fd pc⟩
    · omega
  · intro h0 pc hmem
    rcases parse_entries_cases hp with ⟨hpc, _⟩ | ⟨_, hent⟩
    · omega
    · rw [hent] at hmem
      exact pageHistory_not_mem_withEmail fd pc hmem
  · intro b row hrow
    simp only [get_form_questions_df, hp] at hrow
    have hrow2 : row ∈ (entries.map questionRow).filter
        (fun r => ¬ r.entryId = "pageHistory") := by
      cases b
      · simpa using hrow
      · exact List.mem_of_mem_filter (by simpa using hrow)
    have hdec := (List.mem_filter.mp hrow2).2
    simpa using hdec

/-- Witness for C7: `fdA` has one page break, so its entries end with the
page-history descriptor whose default value is `0,1`. -/
theorem C7_page_history_field_w :
    entriesA = withEmailOf fdA ++ [pageHistoryEntry (pageCountOf fdA)]
    ∧ (pageHistoryEntry (pageCountOf fdA)).default_value = some "0,1" :=
  ⟨((C7_page_history_field fdA entriesA (by decide)).1 (by decide)).1,
   ((C7_page_history_field fdA entriesA (by decide)).2.2.1).trans (by decide)⟩

/-- C8 (amended): the display list is not reordered into schema field order —
on the fallback path it is exactly the collected responses in collection
(arrival) order, and on the parsed path it is exactly the consolidating
model's output order. -/
theorem C8_amended_display_order (N : Nat) (buffer : List ResponseEv)
    (fdata : List QuestionRow) (provided : List RawAnswer) :
    (buffer.length = N →
      fill_in_application N buffer fdata none
        = some { display := buffer.map mkRawAnswer
                 submission := buildSubmission (buffer.map mkRawAnswer) })
    ∧ (N ≤ buffer.length →
      fill_in_application N buffer fdata (some provided)
        = some { display := provided, submission := buildSubmission provided }) := by
  constructor
  · intro hlen
    subst hlen
    simp [fill_in_application, collect_events, List.take_length]
  · intro hle
    simp only [fill_in_application, collect_events, if_pos hle]

/-- Witness for C8 (amended): the concrete out-of-order buffer is displayed in
its own order. -/
theorem C8_amended_display_order_w :
    fill_in_application 2 [r2, r1] rowsB none
      = some { display := [r2, r1].map mkRawAnswer
               submission := buildSubmission ([r2, r1].map mkRawAnswer) } :=
  (C8_amended_display_order 2 [r2, r1] rowsB []).1 (by decide)

/-- Counterexample to C8 as stated: with schema order `entry.1, entry.2` but
completion order reversed, the fallback display list comes out in completion
order, not schema field order. -/
theorem C8_display_order_cex :
    fill_in_application 2 [r2, r1] rowsB none
      = some { display := [mkRawAnswer r2, mkRawAnswer r1]
               submission := [("entry.2", "ans2"), ("entry.1", "ans1")] }
    ∧ ([mkRawAnswer r2, mkRawAnswer r1].map RawAnswer.entry_id) = ["entry.2", "entry.1"]
    ∧ (rowsB.map QuestionRow.entryId) = ["entry.1", "entry.2"]
    ∧ ¬ (["entry.2", "entry.1"] : List String) = ["entry.1", "entry.2"] := by decide

/-- C9: a batch of per-field asks always yields one response per query, and a
field whose engine and LLM calls both fail gets the standardized fallback
text, with the required-field marker appended exactly when the field is
required (the marker changes the text). -/
theorem C9_fallback_answer (qs : List QueryEv) (eo lo : QueryEv → Option String) :
    ((qs.map (fun q => ask_question (eo q) (lo q) q)).length = qs.length)
    ∧ (∀ q : QueryEv, usableText (eo q) (lo q) = none →
        (ask_question (eo q) (lo q) q).response
          = fallbackBase ++ (if q.required then requiredMark else ""))
    ∧ ¬ (fallbackBase ++ requiredMark) = fallbackBase := by
  refine ⟨by simp, ?_, by decide⟩
  intro q hu
  simp [ask_question, hu]

/-- Witness for C9: a required field with both sources failed gets the marked
fallback text. -/
theorem C9_fallback_answer_w :
    (ask_question none none q0).response
      = fallbackBase ++ (if q0.required then requiredMark else "") :=
  (C9_fallback_answer [q0] (fun _ => none) (fun _ => none)).2.1 q0 (by decide)

/-- C10: calling `get_form_submit_request` with unparsed entries always raises
`TypeError` at the `parse_form_entries(only_required=...)` call, before any
request body exists; and a successful result requires the entries to have been
populated (truthy) beforehand. -/
theorem C10_typeerror_gate (fd : FormData) (b : Bool) :
    get_form_submit_request fd none b = PyResult.exn "TypeError"
    ∧ (∀ entries r, get_form_submit_request fd entries b = PyResult.ok r →
        entriesTruthy entries = true) := by
  constructor
  · rfl
  · intro entries r h
    by_cases ht : entriesTruthy entries = true
    · exact ht
    · exfalso
      have hf : entriesTruthy entries = false := by
        revert ht
        cases entriesTruthy entries <;> simp
      simp [get_form_submit_request, hf, callWithKeyword, parse_form_entries_params] at h

/-- Witness for C10: the concrete handler state with unparsed entries raises
`TypeError`. -/
theorem C10_typeerror_gate_w :
    get_form_submit_request fdA none true = PyResult.exn "TypeError" :=
  (C10_typeerror_gate fdA true).1
